import Mathlib

/-
Verification of the wavelink Spotify extension
(src/wavelink/ext/spotify/__init__.py) against its specification.

The Python module is shallowly embedded: each HTTP exchange is modelled by a
response value handed to the corresponding function, mutation of the client /
player objects is modelled by explicit state passing, and raised exceptions
are modelled with Except / explicit outcome fields.
-/

set_option autoImplicit false

namespace WavelinkSpotify

/-! ### Identifier parser (URLREGEX and decode_url, source lines 51-100)

The source pattern is
  (https?://open.)?(spotify)(.com/|:)(?P<type>album|playlist|track|artist)([/:])(?P<id>[a-zA-Z0-9]+)(\?si=[a-zA-Z0-9]+)?(&dl_branch=[0-9]+)?
applied with re.match (anchored at the start only).  The unescaped dots match
any character except a newline.  The two trailing optional groups can affect
neither match success nor the captured groups (they sit at the end of an
unanchored pattern and begin with non-alphanumeric characters, so the greedy
id capture is unaffected); they are therefore not represented.  Ordered
alternation with full-continuation backtracking is implemented explicitly. -/

/-- Consume a literal sequence of characters, returning the remainder. -/
def dropLit : List Char → List Char → Option (List Char)
  | [], rest => some rest
  | _ :: _, [] => none
  | c :: cs, d :: ds => if c = d then dropLit cs ds else none

/-- Character class [a-zA-Z0-9] of the id capture group. -/
def isUrlIdChar (c : Char) : Bool :=
  (('a' ≤ c) && (c ≤ 'z')) || (('A' ≤ c) && (c ≤ 'Z')) || (('0' ≤ c) && (c ≤ '9'))

/-- Greedy run of id characters: maximal matched run plus the remainder. -/
def takeIdRun : List Char → List Char × List Char
  | [] => ([], [])
  | c :: cs =>
    if isUrlIdChar c then
      let p := takeIdRun cs
      (c :: p.1, p.2)
    else ([], c :: cs)

/-- An unescaped regex dot: any single character except a newline. -/
def anyNotNL : List Char → Option (List Char)
  | [] => none
  | c :: rest => if c = '\n' then none else some rest

/-- Separator class ([/:]) between the entity name and the id. -/
def matchSep : List Char → Option (List Char)
  | c :: rest => if c = '/' ∨ c = ':' then some rest else none
  | [] => none

/-- Capture group (?P<id>[a-zA-Z0-9]+): one or more id characters, greedy. -/
def matchId (cs : List Char) : Option String :=
  let p := takeIdRun cs
  if p.1.isEmpty then none else some (String.mk p.1)

/-- Try one alternative of the type group followed by the separator and id. -/
def tryTypeWord (w : String) (cs : List Char) : Option (String × String) :=
  (dropLit w.toList cs).bind fun r1 =>
    (matchSep r1).bind fun r2 =>
      (matchId r2).map fun i => (w, i)

/-- Ordered alternation (?P<type>album|playlist|track|artist) with its
continuation ([/:])(?P<id>[a-zA-Z0-9]+). -/
def matchTypeId (cs : List Char) : Option (String × String) :=
  tryTypeWord "album" cs <|> tryTypeWord "playlist" cs <|>
    tryTypeWord "track" cs <|> tryTypeWord "artist" cs

/-- Alternation (.com/|:) with its continuation, after the literal spotify. -/
def afterSpotify (cs : List Char) : Option (String × String) :=
  ((anyNotNL cs).bind fun r => (dropLit "com/".toList r).bind matchTypeId) <|>
    (match cs with
     | c :: rest => if c = ':' then matchTypeId rest else none
     | [] => none)

/-- Literal (spotify) and everything after it. -/
def spotifyPart (cs : List Char) : Option (String × String) :=
  (dropLit "spotify".toList cs).bind afterSpotify

/-- Tail of the scheme group after https?, namely ://open followed by a dot. -/
def schemeTail (cs : List Char) : Option (List Char) :=
  (dropLit "://open".toList cs).bind anyNotNL

/-- The optional group (https?://open.) taken, with the rest of the pattern as
continuation; the s? is tried greedily with backtracking. -/
def withScheme (cs : List Char) : Option (String × String) :=
  (dropLit "http".toList cs).bind fun r =>
    ((match r with
      | c :: r2 => if c = 's' then (schemeTail r2).bind spotifyPart else none
      | [] => none) <|>
      (schemeTail r).bind spotifyPart)

/-- URLREGEX.match: returns the captured type and id groups on success. -/
def urlregexMatch (s : String) : Option (String × String) :=
  withScheme s.toList <|> spotifyPart s.toList

/-- Enum SpotifySearchType (source lines 103-116). -/
inductive SpotifySearchType where
  | track
  | album
  | playlist
  | unusable
deriving DecidableEq, Repr

/-- Python member name of a SpotifySearchType value (enum .name). -/
def searchTypeName : SpotifySearchType → String
  | .track => "track"
  | .album => "album"
  | .playlist => "playlist"
  | .unusable => "unusable"

/-- Enum lookup SpotifySearchType[w] with KeyError handled as unusable
(source lines 93-96). -/
def searchTypeOfName (w : String) : SpotifySearchType :=
  if w = "track" then .track
  else if w = "album" then .album
  else if w = "playlist" then .playlist
  else .unusable

/-- Function decode_url (source lines 61-100). -/
def decode_url (s : String) : Option (SpotifySearchType × String) :=
  match urlregexMatch s with
  | some ti => some (searchTypeOfName ti.1, ti.2)
  | none => none

/-! ### Request URL construction (source lines 54, 430-438) -/

/-- BASEURL with the entity and identifier fields substituted. -/
def mkEntityUrl (entity identifier : String) : String :=
  "https://api.spotify.com/v1/" ++ entity ++ "s/" ++ identifier

/-- URL selection inside SpotifyClient._search (source lines 430-438): a query
matching URLREGEX supplies both the entity and the identifier, otherwise the
caller-supplied type names the entity and the query is the identifier. -/
def searchUrl (query : String) (ty : SpotifySearchType) : String :=
  match urlregexMatch query with
  | some ti => mkEntityUrl ti.1 ti.2
  | none => mkEntityUrl (searchTypeName ty) query

/-! ### Track payloads and SpotifyTrack (source lines 178-245)

Payloads are the JSON bodies the module reads.  A track payload carries
exactly the keys SpotifyTrack.__init__ accesses; the album images list is
modelled by the image URLs the constructor extracts. -/

/-- Album object of a track payload: the name and image URLs read by
SpotifyTrack.__init__. -/
structure AlbumInfo where
  name : String
  images : List String
deriving DecidableEq, Repr

/-- JSON payload of one track as read by SpotifyTrack.__init__. -/
structure TrackPayload where
  album : AlbumInfo
  artistNames : List String
  name : String
  uri : String
  id : String
  duration_ms : Nat
  isrc : Option String
deriving DecidableEq, Repr

/-- Class SpotifyTrack: the attributes set by __init__ (source lines 224-242). -/
structure SpotifyTrack where
  raw : TrackPayload
  album : String
  images : List String
  artists : List String
  name : String
  title : String
  uri : String
  id : String
  length : Nat
  duration : Nat
  isrc : Option String
deriving DecidableEq, Repr

/-- SpotifyTrack.__init__ applied to a payload. -/
def mkTrack (d : TrackPayload) : SpotifyTrack :=
  { raw := d
    album := d.album.name
    images := d.album.images
    artists := d.artistNames
    name := d.name
    title := d.name
    uri := d.uri
    id := d.id
    length := d.duration_ms
    duration := d.duration_ms
    isrc := d.isrc }

/-- SpotifyTrack.__eq__ (source lines 244-245): compares only the id fields. -/
def spotifyTrack_beq (a b : SpotifyTrack) : Bool :=
  a.id == b.id

/-! ### HTTP responses and the token manager (source lines 393-419) -/

/-- Exception SpotifyRequestError (source lines 162-175). -/
structure SpotifyRequestError where
  status : Nat
  reason : Option String
deriving DecidableEq, Repr

/-- Mutable token state of a SpotifyClient: _bearer_token (None initially) and
_expiry (0 initially), source lines 399-400. -/
structure SpotifyClientState where
  bearer_token : Option String
  expiry : Int
deriving DecidableEq, Repr

/-- Response of the client-credentials grant POST: HTTP status and reason plus
the JSON access_token and expires_in fields. -/
structure GrantResponse where
  status : Nat
  reason : Option String
  access_token : String
  expires_in : Int
deriving DecidableEq, Repr

/-- Python truthiness test `not x` for an optional string: true for None and
for the empty string. -/
def optStrFalsy : Option String → Bool
  | none => true
  | some s => s.isEmpty

/-- SpotifyClient._get_bearer_token (source lines 412-419): raise on a
non-200 status, otherwise store the token and set
expiry = now + (expires_in - 10). -/
def get_bearer_token (_st : SpotifyClientState) (now : Int) (gr : GrantResponse) :
    Except SpotifyRequestError SpotifyClientState :=
  if gr.status ≠ 200 then .error ⟨gr.status, gr.reason⟩
  else .ok ⟨some gr.access_token, now + (gr.expires_in - 10)⟩

/-- Token step of SpotifyClient._search (source lines 427-428): refresh when
the cached token is falsy or now ≥ expiry, else reuse.  The returned number
counts grant requests issued by this search. -/
def tokenPhase (st : SpotifyClientState) (now : Int) (gr : GrantResponse) :
    Except SpotifyRequestError (SpotifyClientState × Nat) :=
  if optStrFalsy st.bearer_token = true ∨ st.expiry ≤ now then
    match get_bearer_token st now gr with
    | .error e => .error e
    | .ok st1 => .ok (st1, 1)
  else .ok (st, 0)

/-! ### Catalog responses and dispatch (source lines 439-493) -/

/-- One element of a playlist page's item list: a wrapper whose track field
may be null (region-unavailable slots). -/
structure PlaylistItem where
  track : Option TrackPayload
deriving DecidableEq, Repr

/-- One continuation-page response of the playlist pagination loop (source
lines 482-490): HTTP status and reason plus the JSON items and next fields. -/
structure ContPage where
  status : Nat
  reason : Option String
  items : List PlaylistItem
  next : Option String
deriving DecidableEq, Repr

/-- Track payload of an album response item: the same keys as TrackPayload
except the album object, which the source attaches itself (line 466). -/
structure AlbumTrackPayload where
  artistNames : List String
  name : String
  uri : String
  id : String
  duration_ms : Nat
  isrc : Option String
deriving DecidableEq, Repr

/-- Assignment track[album] = album_data performed on each album item
(source line 466). -/
def attachAlbum (a : AlbumInfo) (t : AlbumTrackPayload) : TrackPayload :=
  ⟨a, t.artistNames, t.name, t.uri, t.id, t.duration_ms, t.isrc⟩

/-- Body of an entity response, branched on its declared type field
(source lines 445, 448, 474). -/
inductive EntityData where
  | track (payload : TrackPayload)
  | album (info : AlbumInfo) (items : List AlbumTrackPayload)
  | playlist (items : List PlaylistItem) (next : Option String)
deriving DecidableEq, Repr

/-- Response of the main entity GET: HTTP status and reason plus the body. -/
structure EntityResponse where
  status : Nat
  reason : Option String
  data : EntityData
deriving DecidableEq, Repr

/-- Response of the recommendations GET (source lines 366-372): HTTP status
and reason plus the JSON tracks list. -/
structure RecResponse where
  status : Nat
  reason : Option String
  tracks : List TrackPayload
deriving DecidableEq, Repr

/-- Status check of the main entity GET (source lines 439-441). -/
def entity_fetch (er : EntityResponse) : Except SpotifyRequestError EntityData :=
  if er.status ≠ 200 then .error ⟨er.status, er.reason⟩
  else .ok er.data

/-- Status check of the recommendations GET (source lines 366-368). -/
def rec_fetch (rr : RecResponse) : Except SpotifyRequestError (List TrackPayload) :=
  if rr.status ≠ 200 then .error ⟨rr.status, rr.reason⟩
  else .ok rr.tracks

/-- Python falsiness test `not data[next]`: true for null and for the empty
string. -/
def nextFalsy : Option String → Bool
  | none => true
  | some s => s.isEmpty

/-- The while-True continuation loop of the playlist iterator branch (source
lines 482-490).  Each page response is consumed in order; its status is never
inspected.  The loop returns once a page has a falsy next field; none models
the loop still awaiting a further response. -/
def walkPages : List (Option TrackPayload) → List ContPage →
    Option (List (Option TrackPayload))
  | _, [] => none
  | acc, p :: rest =>
    let acc2 := acc ++ p.items.map fun it => it.track
    if nextFalsy p.next then some acc2 else walkPages acc2 rest

/-- Value returned (or failure state reached) by the response dispatch of
SpotifyClient._search. -/
inductive SearchOutcome where
  /-- The track branch returns one bare SpotifyTrack, not a list. -/
  | one (t : SpotifyTrack)
  /-- A list of constructed SpotifyTracks. -/
  | many (ts : List SpotifyTrack)
  /-- Album iterator branch: raw payloads with the album object attached. -/
  | raws (ps : List TrackPayload)
  /-- Playlist iterator branch: the items' track fields, possibly null. -/
  | rawItems (ps : List (Option TrackPayload))
  /-- Playlist non-iterator branch: SpotifyTrack is constructed from the item
  wrapper itself, which lacks the track payload keys, so __init__ raises. -/
  | constructionError
  /-- The continuation loop ran out of supplied page responses. -/
  | hang
deriving DecidableEq, Repr

/-- Dispatch on the response's declared type field (source lines 445-493). -/
def dispatchEntity (d : EntityData) (iterator : Bool) (contPages : List ContPage) :
    SearchOutcome :=
  match d with
  | .track p => .one (mkTrack p)
  | .album info items =>
    let attached := items.map (attachAlbum info)
    if iterator then .raws attached else .many (attached.map mkTrack)
  | .playlist items next =>
    if iterator then
      if nextFalsy next then .rawItems (items.map fun it => it.track)
      else
        match walkPages (items.map fun it => it.track) contPages with
        | some all => .rawItems all
        | none => .hang
    else .constructionError

/-- SpotifyClient._search (source lines 421-493): token phase, URL selection,
entity GET status check, then dispatch.  The Nat component counts grant
requests issued. -/
def spotify_search (st : SpotifyClientState) (now : Int) (gr : GrantResponse)
    (query : String) (ty : SpotifySearchType) (iterator : Bool)
    (er : EntityResponse) (contPages : List ContPage) :
    Except SpotifyRequestError (SpotifyClientState × Nat × String × SearchOutcome) :=
  match tokenPhase st now gr with
  | .error e => .error e
  | .ok (st1, g) =>
    let url := searchUrl query ty
    match entity_fetch er with
    | .error e => .error e
    | .ok d => .ok (st1, g, url, dispatchEntity d iterator contPages)

/-! ### Claims C4 and C5 -/

/-- C4: every string matching the catalog URL pattern with entity name track,
album or playlist decodes to an Identifier of that type with the captured id;
entity name artist decodes to the unusable type with the captured id; a
non-matching string decodes to none rather than an error. -/
theorem decode_url_spec (s : String) :
    (∀ t i, urlregexMatch s = some (t, i) →
      (t = "track" → decode_url s = some (SpotifySearchType.track, i)) ∧
      (t = "album" → decode_url s = some (SpotifySearchType.album, i)) ∧
      (t = "playlist" → decode_url s = some (SpotifySearchType.playlist, i)) ∧
      (t = "artist" → decode_url s = some (SpotifySearchType.unusable, i))) ∧
    (urlregexMatch s = none → decode_url s = none) := by
  constructor
  · intro t i h
    refine ⟨?_, ?_, ?_, ?_⟩ <;> intro ht <;> subst ht <;>
      simp [decode_url, h, searchTypeOfName]
  · intro h
    simp [decode_url, h]

/-- Witness for C4 at the documented example URL. -/
theorem decode_url_spec_witness :
    decode_url "https://open.spotify.com/track/6BDLcvvtyJD2vnXRDi1IjQ?si=abc123" =
      some (SpotifySearchType.track, "6BDLcvvtyJD2vnXRDi1IjQ") := by
  have h :=
    (decode_url_spec "https://open.spotify.com/track/6BDLcvvtyJD2vnXRDi1IjQ?si=abc123").1
      "track" "6BDLcvvtyJD2vnXRDi1IjQ" rfl
  exact h.1 rfl

/-- C5: a query that itself matches the catalog URL pattern determines the
request URL from its captured type and id, independently of the caller
supplied type; any other query is used verbatim as the identifier under the
caller-supplied entity type. -/
theorem search_url_spec (q : String) (ty : SpotifySearchType) :
    (∀ t i, urlregexMatch q = some (t, i) →
      searchUrl q ty = mkEntityUrl t i ∧ ∀ ty2, searchUrl q ty = searchUrl q ty2) ∧
    (urlregexMatch q = none → searchUrl q ty = mkEntityUrl (searchTypeName ty) q) := by
  constructor
  · intro t i h
    constructor
    · simp [searchUrl, h]
    · intro ty2
      simp [searchUrl, h]
  · intro h
    simp [searchUrl, h]

/-- Witness for C5: a URI-form query overrides the caller-supplied album type,
and a plain query is used verbatim under the caller-supplied type. -/
theorem search_url_spec_witness :
    searchUrl "spotify:track:abc123" SpotifySearchType.album = mkEntityUrl "track" "abc123" ∧
    searchUrl "just a plain query" SpotifySearchType.track =
      mkEntityUrl "track" "just a plain query" := by
  refine ⟨((search_url_spec "spotify:track:abc123" SpotifySearchType.album).1
    "track" "abc123" rfl).1, ?_⟩
  exact (search_url_spec "just a plain query" SpotifySearchType.track).2 rfl

/-! ### Claims C1, C3, C9, C10 -/

/-- Boolean error test for an Except value. -/
def exceptIsError {ε α : Type} : Except ε α → Bool
  | .error _ => true
  | .ok _ => false

/-- Sample well-formed track payload used by concrete witnesses. -/
def samplePayload : TrackPayload :=
  ⟨⟨"Album", []⟩, ["Artist"], "Song", "spotify:track:abc123", "abc123", 200000, none⟩

/-- C1: a successful grant with lifetime N sets expiry to the grant time plus
N - 10; a search holding a cached token strictly before expiry issues no grant
request and keeps the state; a search with no usable token, or at or after
expiry, issues exactly one grant request before its catalog fetch. -/
theorem token_lifecycle_spec (st : SpotifyClientState) (now : Int) (gr : GrantResponse)
    (q : String) (ty : SpotifySearchType) (it : Bool) (er : EntityResponse)
    (cp : List ContPage) :
    (gr.status = 200 →
      get_bearer_token st now gr =
        .ok ⟨some gr.access_token, now + (gr.expires_in - 10)⟩) ∧
    (∀ tok, st.bearer_token = some tok → tok.isEmpty = false → now < st.expiry →
      spotify_search st now gr q ty it er cp =
        if er.status ≠ 200 then .error ⟨er.status, er.reason⟩
        else .ok (st, 0, searchUrl q ty, dispatchEntity er.data it cp)) ∧
    ((optStrFalsy st.bearer_token = true ∨ st.expiry ≤ now) → gr.status = 200 →
      spotify_search st now gr q ty it er cp =
        if er.status ≠ 200 then .error ⟨er.status, er.reason⟩
        else .ok (⟨some gr.access_token, now + (gr.expires_in - 10)⟩, 1,
          searchUrl q ty, dispatchEntity er.data it cp)) := by
  refine ⟨?_, ?_, ?_⟩
  · intro h
    simp [get_bearer_token, h]
  · intro tok htok hne hlt
    have hcond : ¬ (optStrFalsy st.bearer_token = true ∨ st.expiry ≤ now) := by
      intro hor
      rcases hor with h1 | h2
      · rw [htok] at h1
        simp [optStrFalsy, hne] at h1
      · omega
    by_cases hs : er.status = 200 <;>
      simp [spotify_search, tokenPhase, hcond, entity_fetch, hs]
  · intro hcond h200
    by_cases hs : er.status = 200 <;>
      simp [spotify_search, tokenPhase, hcond, get_bearer_token, entity_fetch, h200, hs]

/-- Witness for C1: a fresh client refreshes exactly once, a client with a
valid cached token reuses it without any grant request. -/
theorem token_lifecycle_spec_witness :
    spotify_search ⟨some "cached", 1000⟩ 100 ⟨200, none, "tok", 3600⟩ "q"
        SpotifySearchType.track false ⟨200, none, EntityData.track samplePayload⟩ [] =
      .ok (⟨some "cached", 1000⟩, 0, searchUrl "q" SpotifySearchType.track,
        dispatchEntity (EntityData.track samplePayload) false []) ∧
    spotify_search ⟨none, 0⟩ 100 ⟨200, none, "tok", 3600⟩ "q"
        SpotifySearchType.track false ⟨200, none, EntityData.track samplePayload⟩ [] =
      .ok (⟨some "tok", 100 + (3600 - 10)⟩, 1, searchUrl "q" SpotifySearchType.track,
        dispatchEntity (EntityData.track samplePayload) false []) := by
  constructor
  · have h := (token_lifecycle_spec ⟨some "cached", 1000⟩ 100 ⟨200, none, "tok", 3600⟩ "q"
      SpotifySearchType.track false ⟨200, none, EntityData.track samplePayload⟩ []).2.1
      "cached" rfl rfl (by decide)
    simpa using h
  · have h := (token_lifecycle_spec ⟨none, 0⟩ 100 ⟨200, none, "tok", 3600⟩ "q"
      SpotifySearchType.track false ⟨200, none, EntityData.track samplePayload⟩ []).2.2
      (Or.inl rfl) rfl
    simpa using h

/-- Statuses of the continuation pages are never inspected: rewriting every
status and reason leaves the walk unchanged. -/
theorem walkPages_status_irrelevant (s : Nat) (r : Option String) :
    ∀ (pages : List ContPage) (acc : List (Option TrackPayload)),
      walkPages acc (pages.map fun p => { p with status := s, reason := r }) =
        walkPages acc pages := by
  intro pages
  induction pages with
  | nil => intro acc; rfl
  | cons p rest ih =>
    intro acc
    by_cases hn : nextFalsy p.next <;> simp [walkPages, hn, ih]

/-- Modelled from the spec: the claim's notion of a successful HTTP status,
namely any 2xx code. -/
def spec_is2xx (n : Nat) : Bool :=
  decide (200 ≤ n) && decide (n < 300)

/-- C3 amended: the token grant, the initial entity fetch and the
recommendations fetch raise SpotifyRequestError carrying the response status
and reason exactly when the status differs from 200; the playlist
continuation-page loop performs no status check, so its result is independent
of the page statuses. -/
theorem http_error_spec (st : SpotifyClientState) (now : Int) (gr : GrantResponse)
    (er : EntityResponse) (rr : RecResponse) (acc : List (Option TrackPayload))
    (pages : List ContPage) (s : Nat) (r : Option String) :
    (exceptIsError (get_bearer_token st now gr) = true ↔ gr.status ≠ 200) ∧
    (gr.status ≠ 200 → get_bearer_token st now gr = .error ⟨gr.status, gr.reason⟩) ∧
    (exceptIsError (entity_fetch er) = true ↔ er.status ≠ 200) ∧
    (er.status ≠ 200 → entity_fetch er = .error ⟨er.status, er.reason⟩) ∧
    (exceptIsError (rec_fetch rr) = true ↔ rr.status ≠ 200) ∧
    (rr.status ≠ 200 → rec_fetch rr = .error ⟨rr.status, rr.reason⟩) ∧
    walkPages acc (pages.map fun p => { p with status := s, reason := r }) =
      walkPages acc pages := by
  refine ⟨?_, ?_, ?_, ?_, ?_, ?_, walkPages_status_irrelevant s r pages acc⟩
  · by_cases h : gr.status = 200 <;> simp [get_bearer_token, exceptIsError, h]
  · intro h
    simp [get_bearer_token, h]
  · by_cases h : er.status = 200 <;> simp [entity_fetch, exceptIsError, h]
  · intro h
    simp [entity_fetch, h]
  · by_cases h : rr.status = 200 <;> simp [rec_fetch, exceptIsError, h]
  · intro h
    simp [rec_fetch, h]

/-- Witness for C3 (amended): concrete non-200 responses produce the carried
errors. -/
theorem http_error_spec_witness :
    get_bearer_token ⟨none, 0⟩ 0 ⟨404, some "Not Found", "", 0⟩ =
      .error ⟨404, some "Not Found"⟩ ∧
    entity_fetch ⟨500, some "Oops", EntityData.track samplePayload⟩ =
      .error ⟨500, some "Oops"⟩ ∧
    rec_fetch ⟨403, none, []⟩ = .error ⟨403, none⟩ := by
  refine ⟨?_, ?_, ?_⟩
  · exact (http_error_spec ⟨none, 0⟩ 0 ⟨404, some "Not Found", "", 0⟩
      ⟨500, some "Oops", EntityData.track samplePayload⟩ ⟨403, none, []⟩ [] [] 0
      none).2.1 (by decide)
  · exact (http_error_spec ⟨none, 0⟩ 0 ⟨404, some "Not Found", "", 0⟩
      ⟨500, some "Oops", EntityData.track samplePayload⟩ ⟨403, none, []⟩ [] [] 0
      none).2.2.2.1 (by decide)
  · exact (http_error_spec ⟨none, 0⟩ 0 ⟨404, some "Not Found", "", 0⟩
      ⟨500, some "Oops", EntityData.track samplePayload⟩ ⟨403, none, []⟩ [] [] 0
      none).2.2.2.2.2.1 (by decide)

/-- Counterexample to C3 as stated: a 201 grant response is 2xx yet raises
SpotifyRequestError, and a 500 continuation page is non-2xx yet raises
nothing (the walk returns its items). -/
theorem http_error_claim_counterexample :
    (get_bearer_token ⟨none, 0⟩ 0 ⟨201, some "Created", "tok", 3600⟩ =
        .error ⟨201, some "Created"⟩ ∧
      spec_is2xx 201 = true) ∧
    (walkPages [] [⟨500, some "Server Error", [], none⟩] = some [] ∧
      spec_is2xx 500 = false) :=
  ⟨⟨rfl, rfl⟩, ⟨rfl, rfl⟩⟩

/-- C9: two SpotifyTracks compare equal exactly when their id fields are
equal, whatever the other fields hold. -/
theorem track_eq_by_id (a b : SpotifyTrack) :
    spotifyTrack_beq a b = true ↔ a.id = b.id := by
  simp [spotifyTrack_beq]

/-- Result of the Python expression x[0] evaluated on a value returned by
SpotifyClient._search.  SpotifyTrack defines no __getitem__, so indexing the
bare track of the track branch raises TypeError; indexing an empty list
raises IndexError; list elements come back as they are stored. -/
inductive PyGetItem0Result where
  | ok (t : SpotifyTrack)
  | okRawPayload (p : TrackPayload)
  | okRawItem (it : Option TrackPayload)
  | typeError
  | indexError
  | notReached
deriving DecidableEq, Repr

/-- Subscript tracks[0] on each possible _search outcome; outcomes modelling
an exception already raised inside _search never reach the subscript. -/
def getitem0 : SearchOutcome → PyGetItem0Result
  | .one _ => .typeError
  | .many [] => .indexError
  | .many (t :: _) => .ok t
  | .raws [] => .indexError
  | .raws (p :: _) => .okRawPayload p
  | .rawItems [] => .indexError
  | .rawItems (it :: _) => .okRawItem it
  | .constructionError => .notReached
  | .hang => .notReached

/-- Value produced by the SpotifyTrack.search classmethod: either the _search
result passed through, or the result of indexing it with [0]. -/
inductive SearchCallResult where
  | value (r : SearchOutcome)
  | firstItem (r : PyGetItem0Result)
deriving DecidableEq, Repr

/-- Track-type branch of SpotifyTrack.search (source lines 278-281): return
tracks[0] if return_first else tracks. -/
def spotifyTrackSearch_trackType (res : SearchOutcome) (returnFirst : Bool) :
    SearchCallResult :=
  if returnFirst then .firstItem (getitem0 res) else .value res

/-- C10: a track-type response makes _search return one bare SpotifyTrack;
search with return_first applies [0] to it, which SpotifyTrack does not
support, so the call fails with a TypeError instead of returning the first
track, while return_first false hands back the bare track. -/
theorem track_search_return_first_fails (p : TrackPayload) (cp : List ContPage) :
    dispatchEntity (EntityData.track p) false cp = SearchOutcome.one (mkTrack p) ∧
    spotifyTrackSearch_trackType (SearchOutcome.one (mkTrack p)) true =
      SearchCallResult.firstItem PyGetItem0Result.typeError ∧
    spotifyTrackSearch_trackType (SearchOutcome.one (mkTrack p)) false =
      SearchCallResult.value (SearchOutcome.one (mkTrack p)) :=
  ⟨rfl, rfl, rfl⟩

/-! ### Recommendation seeder: SpotifyTrack.fulfill (source lines 337-379)

The player object is modelled by the fields fulfill touches.  The initial
resolution of a playable track goes through the host library's search (an
external collaborator) and involves no spotify client state, so it is not
part of this state model; the outcome records the player state after the
call, the number of recommendations GET requests issued, and the error
raised, if any. -/

/-- Player fields read and written by fulfill. -/
structure PlayerState where
  autoplay : Bool
  track_seeds : List String
  auto_queue : List SpotifyTrack
  auto_queue_history : List SpotifyTrack
deriving DecidableEq, Repr

/-- Seed insertion (source lines 360-363): pop index 0 when the window holds
exactly 5 entries, then append the id. -/
def seedAppend (seeds : List String) (tid : String) : List String :=
  (if seeds.length = 5 then seeds.drop 1 else seeds) ++ [tid]

/-- Enqueue loop over the constructed recommendations (source lines 373-377):
each iteration evaluates membership of the track in the current queue and in
the history, but the branch body is a no-op, and the track is enqueued
unconditionally. -/
def enqueueRecos (queue history recos : List SpotifyTrack) : List SpotifyTrack :=
  recos.foldl
    (fun q reco =>
      let _dup := q.any (fun t => spotifyTrack_beq reco t) ||
        history.any fun t => spotifyTrack_beq reco t
      q ++ [reco])
    queue

/-- Observable result of one fulfill call: the player state afterwards, the
number of recommendations GET requests issued, and the error raised if the
recommendations response was rejected. -/
structure FulfillOutcome where
  player : PlayerState
  recRequests : Nat
  failure : Option SpotifyRequestError
deriving DecidableEq, Repr

/-- SpotifyTrack.fulfill (source lines 337-379), from the autoplay/populate
guard on: return immediately when autoplay is off or populate is false;
otherwise append the track id to the seed window, issue the recommendations
GET, raise on a non-200 status, and enqueue every constructed track. -/
def fulfill (self : SpotifyTrack) (p : PlayerState) (populate : Bool)
    (rr : RecResponse) : FulfillOutcome :=
  if p.autoplay = false ∨ populate = false then ⟨p, 0, none⟩
  else
    let p1 := { p with track_seeds := seedAppend p.track_seeds self.id }
    match rec_fetch rr with
    | .error e => ⟨p1, 1, some e⟩
    | .ok ts =>
      let recos := ts.map mkTrack
      ⟨{ p1 with
          auto_queue := enqueueRecos p1.auto_queue p1.auto_queue_history recos },
        1, none⟩

/-- The dead duplicate check never filters: the enqueue loop appends every
recommendation to the queue. -/
theorem enqueueRecos_eq_append (queue history recos : List SpotifyTrack) :
    enqueueRecos queue history recos = queue ++ recos := by
  induction recos generalizing queue with
  | nil => simp [enqueueRecos]
  | cons r rest ih =>
    show enqueueRecos (queue ++ [r]) history rest = queue ++ r :: rest
    rw [ih (queue ++ [r])]
    simp

/-- On every populate path the seed window becomes seedAppend of the old
window, whether or not the recommendations request succeeds. -/
theorem fulfill_seeds_on_populate (self : SpotifyTrack) (p : PlayerState)
    (rr : RecResponse) (ha : p.autoplay = true) :
    (fulfill self p true rr).player.track_seeds = seedAppend p.track_seeds self.id := by
  cases h : rec_fetch rr <;> simp [fulfill, ha, h]

/-- C6: under the capacity invariant, a fulfill call keeps the seed window at
of most five entries, and a populating call on a full window drops the oldest
entry before appending the source track id (FIFO eviction). -/
theorem seed_window_bounded (self : SpotifyTrack) (p : PlayerState) (populate : Bool)
    (rr : RecResponse) (h5 : p.track_seeds.length ≤ 5) :
    (fulfill self p populate rr).player.track_seeds.length ≤ 5 ∧
    (p.autoplay = true → populate = true → p.track_seeds.length = 5 →
      (fulfill self p populate rr).player.track_seeds =
        p.track_seeds.drop 1 ++ [self.id]) := by
  by_cases hc : p.autoplay = false ∨ populate = false
  · refine ⟨by simpa [fulfill, hc] using h5, ?_⟩
    intro ha hp _
    rcases hc with h | h
    · rw [ha] at h
      cases h
    · rw [hp] at h
      cases h
  · have ha : p.autoplay = true := by
      cases hauto : p.autoplay
      · exact absurd (Or.inl hauto) hc
      · rfl
    have hpop : populate = true := by
      cases hp : populate
      · exact absurd (Or.inr hp) hc
      · rfl
    subst hpop
    have hseeds := fulfill_seeds_on_populate self p rr ha
    refine ⟨?_, fun _ _ hlen => by rw [hseeds]; simp [seedAppend, hlen]⟩
    rw [hseeds]
    by_cases h5e : p.track_seeds.length = 5 <;>
      simp [seedAppend, h5e] <;>
      omega

/-- Witness for C6: a populating fulfill on a full five-entry window keeps
length five and evicts the oldest seed. -/
theorem seed_window_bounded_witness :
    (fulfill (mkTrack samplePayload) ⟨true, ["a", "b", "c", "d", "e"], [], []⟩ true
        ⟨200, none, []⟩).player.track_seeds.length ≤ 5 ∧
    (fulfill (mkTrack samplePayload) ⟨true, ["a", "b", "c", "d", "e"], [], []⟩ true
        ⟨200, none, []⟩).player.track_seeds =
      (["a", "b", "c", "d", "e"] : List String).drop 1 ++ [(mkTrack samplePayload).id] := by
  have h := seed_window_bounded (mkTrack samplePayload)
    ⟨true, ["a", "b", "c", "d", "e"], [], []⟩ true ⟨200, none, []⟩ (by decide)
  exact ⟨h.1, h.2 rfl rfl (by decide)⟩

/-- C7: with autoplay off or populate false, fulfill issues no recommendations
request and leaves the player untouched; with autoplay on and populate true it
issues exactly one recommendations request and appends exactly the source
track id to the seed window. -/
theorem fulfill_populate_effects (self : SpotifyTrack) (p : PlayerState)
    (populate : Bool) (rr : RecResponse) :
    ((p.autoplay = false ∨ populate = false) →
      (fulfill self p populate rr).recRequests = 0 ∧
      (fulfill self p populate rr).player = p) ∧
    (p.autoplay = true → populate = true →
      (fulfill self p populate rr).recRequests = 1 ∧
      (fulfill self p populate rr).player.track_seeds =
        seedAppend p.track_seeds self.id) := by
  constructor
  · intro hc
    simp [fulfill, hc]
  · intro ha hp
    subst hp
    exact ⟨by cases h : rec_fetch rr <;> simp [fulfill, ha, h],
      fulfill_seeds_on_populate self p rr ha⟩

/-- Witness for C7: both guard outcomes at concrete inputs. -/
theorem fulfill_populate_effects_witness :
    ((fulfill (mkTrack samplePayload) ⟨true, ["a"], [], []⟩ false
        ⟨200, none, []⟩).recRequests = 0 ∧
      (fulfill (mkTrack samplePayload) ⟨true, ["a"], [], []⟩ false
        ⟨200, none, []⟩).player = ⟨true, ["a"], [], []⟩) ∧
    ((fulfill (mkTrack samplePayload) ⟨true, ["a"], [], []⟩ true
        ⟨200, none, []⟩).recRequests = 1 ∧
      (fulfill (mkTrack samplePayload) ⟨true, ["a"], [], []⟩ true
        ⟨200, none, []⟩).player.track_seeds =
        seedAppend ["a"] (mkTrack samplePayload).id) :=
  ⟨(fulfill_populate_effects (mkTrack samplePayload) ⟨true, ["a"], [], []⟩ false
      ⟨200, none, []⟩).1 (Or.inr rfl),
    (fulfill_populate_effects (mkTrack samplePayload) ⟨true, ["a"], [], []⟩ true
      ⟨200, none, []⟩).2 rfl rfl⟩

/-- C8: a populating fulfill enqueues every track built from the
recommendations response, duplicates included: the final continuation queue
is the old queue with all recommendations appended, for every queue and
history content. -/
theorem fulfill_enqueues_duplicates (self : SpotifyTrack) (p : PlayerState)
    (rr : RecResponse) (ha : p.autoplay = true) (hs : rr.status = 200) :
    (fulfill self p true rr).player.auto_queue =
      p.auto_queue ++ rr.tracks.map mkTrack := by
  simp [fulfill, ha, rec_fetch, hs, enqueueRecos_eq_append]

/-- Witness for C8: a recommendation already present in the continuation
queue is enqueued again. -/
theorem fulfill_enqueues_duplicates_witness :
    (fulfill (mkTrack samplePayload) ⟨true, [], [mkTrack samplePayload], []⟩ true
        ⟨200, none, [samplePayload]⟩).player.auto_queue =
      [mkTrack samplePayload] ++ [samplePayload].map mkTrack :=
  fulfill_enqueues_duplicates (mkTrack samplePayload)
    ⟨true, [], [mkTrack samplePayload], []⟩ ⟨200, none, [samplePayload]⟩ rfl rfl

/-! ### Pagination stream: SpotifyAsyncIterator (source lines 119-159)

fill_queue drains the iterator-mode search result into a FIFO buffer in
order; __anext__ then repeatedly checks the limit against the count of
yielded tracks, dequeues, skips null slots without counting, constructs a
SpotifyTrack and counts it.  iterYield is the list of tracks the loop yields
from a given buffer, count and limit (limit None when unset). -/

/-- Full consumption of the iterator from a buffer state: the limit test
mirrors `self._limit is not None and self._count == self._limit`. -/
def iterYield (limit : Option Nat) : Nat → List (Option TrackPayload) → List SpotifyTrack
  | _, [] => []
  | count, none :: rest =>
    if limit = some count then [] else iterYield limit count rest
  | count, some t :: rest =>
    if limit = some count then []
    else mkTrack t :: iterYield limit (count + 1) rest

/-- Unlimited consumption yields a track per non-null slot, in order. -/
theorem iterYield_no_limit (buf : List (Option TrackPayload)) :
    ∀ c, iterYield none c buf = (buf.filterMap id).map mkTrack := by
  induction buf with
  | nil => intro c; rfl
  | cons hd tl ih =>
    intro c
    cases hd with
    | none => simp [iterYield, List.filterMap_cons, ih c]
    | some t => simp [iterYield, List.filterMap_cons, ih (c + 1)]

/-- Limited consumption from count c yields the next L - c non-null slots. -/
theorem iterYield_with_limit (L : Nat) (buf : List (Option TrackPayload)) :
    ∀ c, c ≤ L →
      iterYield (some L) c buf = ((buf.filterMap id).map mkTrack).take (L - c) := by
  induction buf with
  | nil => intro c hc; simp [iterYield]
  | cons hd tl ih =>
    intro c hc
    cases hd with
    | none =>
      by_cases hcl : c = L
      · subst hcl
        simp [iterYield]
      · have hne : (some L : Option Nat) ≠ some c := by
          simp
          omega
        simp [iterYield, hne, List.filterMap_cons, ih c hc]
    | some t =>
      by_cases hcl : c = L
      · subst hcl
        simp [iterYield]
      · have hne : (some L : Option Nat) ≠ some c := by
          simp
          omega
        have h1 : L - c = (L - (c + 1)) + 1 := by omega
        simp only [iterYield, hne, if_neg, List.filterMap_cons, id]
        rw [ih (c + 1) (by omega), List.map_cons, h1, List.take_succ_cons]
        simp

/-- C2: from any buffer, the stream with no limit yields one track per
non-null slot in arrival order (107 for buffers of 107 non-null slots), and
with limit L yields exactly the first L non-null slots, stopping early only
when the buffer is exhausted; null slots are skipped without counting toward
the limit and without ending the stream. -/
theorem pagination_stream_spec (buf : List (Option TrackPayload)) (L : Nat) :
    iterYield none 0 buf = (buf.filterMap id).map mkTrack ∧
    iterYield (some L) 0 buf = ((buf.filterMap id).map mkTrack).take L := by
  refine ⟨iterYield_no_limit buf 0, ?_⟩
  have h := iterYield_with_limit L buf 0 (Nat.zero_le L)
  simpa using h

end WavelinkSpotify
